import Mathlib

/-!
Shallow embedding of `src/main.py` of g4ze/stock-predictor: a Streamlit app
that loads daily stock prices, fits a SARIMAX model to the closing-price
series and forecasts `n_years * 365` days ahead.

Modelling choices:
* Calendar dates are proleptic-Gregorian ordinals (`Nat`, as in Python's
  `date.toordinal`); `pd.DateOffset(1)` — one calendar day — is `+ 1` on
  ordinals.  `toOrdinal` below converts a (year, month, day) triple so that
  concrete calendar scenarios can be evaluated.
* Prices are rationals (the claims settled here are structural — lengths,
  dates, pass-through, error surfacing — and do not depend on rounding).
* The parts of the pipeline that live in external libraries
  (statsmodels' SARIMAX fit / `get_forecast`, pandas' length check when
  building a DataFrame) or only in the spec's component contracts
  (`InvalidInputError`, `ModelFitError`, `LengthMismatchError`) are modelled
  from the spec; each such definition says so in its doc comment.
-/

namespace StockPredictor

/-! ### Calendar dates as proleptic-Gregorian ordinals -/

/-- Gregorian leap-year test (as in Python's `calendar.isleap`). -/
def isLeap (y : Nat) : Bool :=
  (y % 4 == 0 && y % 100 != 0) || (y % 400 == 0)

/-- Number of days in month `m` (1–12) of year `y`. -/
def daysInMonth (y m : Nat) : Nat :=
  if m == 2 then (if isLeap y then 29 else 28)
  else if m == 4 || m == 6 || m == 9 || m == 11 then 30
  else 31

/-- Days in all years strictly before year `y` (proleptic Gregorian). -/
def daysBeforeYear (y : Nat) : Nat :=
  365 * (y - 1) + (y - 1) / 4 - (y - 1) / 100 + (y - 1) / 400

/-- Days in all months of year `y` strictly before month `m`. -/
def daysBeforeMonth (y m : Nat) : Nat :=
  ((List.range (m - 1)).map (fun i => daysInMonth y (i + 1))).sum

/-- Proleptic-Gregorian ordinal of the calendar date `y-m-d`
(day 1 is 0001-01-01, exactly Python's `date(y, m, d).toordinal()`). -/
def toOrdinal (y m d : Nat) : Nat :=
  daysBeforeYear y + daysBeforeMonth y m + d

/-! ### The stock catalog (`src/main.py` lines 26–32) -/

/-- Line 26: the tuple of provider symbol codes. -/
def unsortedStocksCodes : List String :=
  ["JNJ", "GOOG", "AAPL", "BRK-A", "AMZN", "MSFT", "JPM", "NFLX", "META",
   "BAC", "GME", "MCD", "KO"]

/-- Lines 27–29: the tuple of human-readable company names, positionally
aligned with `unsortedStocksCodes`. -/
def unsortedStocksList : List String :=
  ["Johnson & Johnson", "Alphabet Inc Class C", "Apple Inc",
   "Berkshire Hathaway Inc. Class A", "Amazon.com, Inc.",
   "Microsoft Corporation", "JPMorgan Chase & Co", "Netflix Inc",
   "Meta Platforms Inc", "Bank of America Corp", "GameStop Corp.",
   "McDonald's Corp", "Coca-Cola Co"]

/-- Line 30: `dict(zip(list(unsortedStocksList), list(unsortedStocksCodes)))`,
as an association list with Python-dict lookup semantics (first match, since
the names are distinct). -/
def stocks_dictionary : List (String × String) :=
  List.zip unsortedStocksList unsortedStocksCodes

/-- Lexicographic (code-point) comparison of character lists — the order
Python uses to compare strings. -/
def charListLe : List Char → List Char → Bool
  | [], _ => true
  | _ :: _, [] => false
  | a :: as, b :: bs =>
      if a.toNat < b.toNat then true
      else if b.toNat < a.toNat then false
      else charListLe as bs

/-- `a` sorts no later than `b` (Python's `a <= b` on strings). -/
def strLe (a b : String) : Bool := charListLe a.data b.data

/-- Insert a string into an already-sorted list, keeping it sorted. -/
def insertSorted (a : String) : List String → List String
  | [] => [a]
  | b :: rest => if strLe a b then a :: b :: rest else b :: insertSorted a rest

/-- Stable insertion sort by `≤` — the order produced by Python's
`sorted` on strings (lexicographic by code point). -/
def sortedNames : List String → List String
  | [] => []
  | a :: rest => insertSorted a (sortedNames rest)

/-- Lines 31–32: `stocks = tuple(sorted(unsortedStocksList))` — the dropdown
options, the names sorted lexicographically. -/
def stocks : List String :=
  sortedNames unsortedStocksList

/-! ### Slider-derived horizon (`src/main.py` lines 97–98) -/

/-- Line 98: `period = n_years * 365`; `n_years` comes from
`st.slider("Years of prediction", 1, 10)`, which yields a value in [1, 10]. -/
def period (nYears : Nat) : Nat := nYears * 365

/-! ### Forecast date index (`src/main.py` line 148) -/

/-- Line 148: `pd.date_range(start=last + pd.DateOffset(1), periods=h, freq='D')`
— `h` consecutive calendar days starting one day after `lastDate`. -/
def forecastIndex (lastDate h : Nat) : List Nat :=
  (List.range h).map (fun i => lastDate + 1 + i)

/-! ### The pipeline data model -/

/-- One raw price row as fetched for a stock: the date (ordinal) and the
`Open` / `Close` columns used by `main` (other OHLC columns are unused). -/
structure PriceRow where
  date : Nat
  openPrice : ℚ
  closePrice : ℚ
deriving Repr, DecidableEq, Inhabited

/-- The error taxonomy of the spec's pipeline (§7): `InvalidInputError`,
`ModelFitError`, `LengthMismatchError`.  Modelled from the spec: `src/main.py`
inlines the happy path and leaves these failures to the underlying libraries,
so the named classes exist only in the spec. -/
inductive PipelineError where
  | invalidInput
  | modelFit
  | lengthMismatch
deriving Repr, DecidableEq

/-- Dates strictly ascending along a row list. -/
def datesAscending : List PriceRow → Bool
  | [] => true
  | [_] => true
  | a :: b :: rest => decide (a.date < b.date) && datesAscending (b :: rest)

/-! ### SeriesPreparer (`src/main.py` lines 131–136) -/

/-- Lines 131–132: `df_train = stock_data[['Date', 'Close']]` renamed to
`ds`/`y` — pure column extraction, no value transform (the differencing line
136 is commented out).  The emptiness / ascending-date validation
(`InvalidInputError`) is modelled from the spec (§4.1, §7): the source slices
columns unconditionally and relies on the input constraint. -/
def prepare (rows : List PriceRow) : Except PipelineError (List (Nat × ℚ)) :=
  if rows.isEmpty then .error .invalidInput
  else if datesAscending rows then .ok (rows.map (fun r => (r.date, r.closePrice)))
  else .error .invalidInput

/-! ### ForecastModel (`src/main.py` lines 139–145) -/

/-- Line 139: the model specification passed to `SARIMAX`:
`order=(1, 1, 1), seasonal_order=(1, 1, 1, 12)`. -/
structure SarimaxSpec where
  order : Nat × Nat × Nat
  seasonalOrder : Nat × Nat × Nat × Nat
deriving Repr, DecidableEq

/-- The one specification the source ever constructs (line 139). -/
def mainModelSpec : SarimaxSpec :=
  { order := (1, 1, 1), seasonalOrder := (1, 1, 1, 12) }

/-- Seasonal period `s` of a specification (12 on line 139). -/
def seasonalPeriod (spec : SarimaxSpec) : Nat :=
  spec.seasonalOrder.2.2.2

/-- The fitted SARIMA(1,1,1)(1,1,1,12) state: the estimated coefficients
(non-seasonal AR `phi`, non-seasonal MA `theta`, seasonal AR `sphi`, seasonal
MA `stheta`) together with the observed values and in-sample innovations,
both stored most-recent-first. -/
structure FittedModel where
  phi : ℚ
  theta : ℚ
  sphi : ℚ
  stheta : ℚ
  yHist : List ℚ
  epsHist : List ℚ
deriving Repr, DecidableEq

/-- `(1-B)(1-B^12)`-differenced value at lag `k` of a most-recent-first
series: `z_{t-k} = y_{t-k} - y_{t-k-1} - y_{t-k-12} + y_{t-k-13}`
(values before the start of the sample read as 0). -/
def zOf (y : List ℚ) (k : Nat) : ℚ :=
  y.getD k 0 - y.getD (k + 1) 0 - y.getD (k + 12) 0 + y.getD (k + 13) 0

/-- One-step point forecast of the SARIMA(1,1,1)(1,1,1,12) difference
equation, future innovations set to zero:
`ẑ_{t+1} = φ z_t + Φ z_{t-11} - φΦ z_{t-12} + θ ε_t + Θ ε_{t-11} + θΘ ε_{t-12}`
and `ŷ_{t+1} = ẑ_{t+1} + y_t + y_{t-11} - y_{t-12}`. -/
def forecastStep (m : FittedModel) (y eps : List ℚ) : ℚ :=
  let zpred := m.phi * zOf y 0 + m.sphi * zOf y 11 - m.phi * m.sphi * zOf y 12
      + m.theta * eps.getD 0 0 + m.stheta * eps.getD 11 0
      + m.theta * m.stheta * eps.getD 12 0
  zpred + y.getD 0 0 + y.getD 11 0 - y.getD 12 0

/-- Iterate the one-step forecast `n` times, feeding each prediction back
into the history (with zero innovation), collecting the predictions in
order. -/
def forecastAux (m : FittedModel) : Nat → List ℚ → List ℚ → List ℚ
  | 0, _, _ => []
  | n + 1, y, eps =>
      let v := forecastStep m y eps
      v :: forecastAux m n (v :: y) (0 :: eps)

/-- Line 145: `results.get_forecast(steps=period).predicted_mean` — the
sequence of point forecasts for the `steps` periods immediately following
the last observed point.  Modelled from the spec for the statsmodels
internals: the state-space filter is replaced by the equivalent SARIMA
difference-equation recursion on the fitted state. -/
def get_forecast (m : FittedModel) (steps : Nat) : List ℚ :=
  forecastAux m steps m.yHist m.epsHist

/-- In-sample innovations of the SARIMA recursion: consume the series in
order, at each point subtracting the model's one-step prediction from the
actual differenced value.  `y` and `eps` accumulate most-recent-first. -/
def residAux (phi theta sphi stheta : ℚ) :
    List ℚ → List ℚ → List ℚ → List ℚ
  | [], _, eps => eps
  | v :: rest, y, eps =>
      let y1 := v :: y
      let zPred := phi * zOf y1 1 + sphi * zOf y1 12 - phi * sphi * zOf y1 13
          + theta * eps.getD 0 0 + stheta * eps.getD 11 0
          + theta * stheta * eps.getD 12 0
      residAux phi theta sphi stheta rest y1 ((zOf y1 0 - zPred) :: eps)

/-- Line 142: `results = model.fit(disp=False)`.  Modelled from the spec:
the numerical maximum-likelihood optimizer is abstracted as the `optimize`
argument, which either converges to the four coefficients or fails
(`none`); the spec's `ModelFitError` (§4.2, §7) is raised when the series is
shorter than two full seasonal cycles (`2 * 12 = 24` points) or when the
optimizer does not converge. -/
def fitWith (spec : SarimaxSpec) (optimize : List ℚ → Option (ℚ × ℚ × ℚ × ℚ))
    (series : List ℚ) : Except PipelineError FittedModel :=
  if series.length < 2 * seasonalPeriod spec then .error .modelFit
  else
    match optimize series with
    | none => .error .modelFit
    | some (phi, theta, sphi, stheta) =>
        .ok { phi := phi, theta := theta, sphi := sphi, stheta := stheta,
              yHist := series.reverse,
              epsHist := residAux phi theta sphi stheta series [] [] }

/-! ### ForecastAssembler (`src/main.py` lines 148–149) -/

/-- Lines 148–149: build the future date index and pair it with the
predicted values in
`pd.DataFrame({'ds': forecast_index, 'y': forecast_values})`.
The length check is pandas' own (constructing a DataFrame from columns of
unequal length raises), named `LengthMismatchError` as modelled from the
spec (§4.3, §7). -/
def assemble (lastDate h : Nat) (predicted : List ℚ) :
    Except PipelineError (List (Nat × ℚ)) :=
  if predicted.length = h then .ok (List.zip (forecastIndex lastDate h) predicted)
  else .error .lengthMismatch

/-! ### Pipeline (`main`, lines 131–149 end to end) -/

/-- The pipeline output: the observed (prepared) series and the forecast
series, both as (date, value) lists. -/
structure ForecastResult where
  observed : List (Nat × ℚ)
  forecast : List (Nat × ℚ)
deriving Repr, DecidableEq

/-- The forecasting pipeline of `main` with an explicit model
specification: prepare (131–136), fit (139–142), forecast (145),
assemble (148–149), in strict sequence.  `optimize` abstracts the numerical
fitting backend. -/
def runWithSpec (spec : SarimaxSpec)
    (optimize : List ℚ → Option (ℚ × ℚ × ℚ × ℚ))
    (rows : List PriceRow) (h : Nat) : Except PipelineError ForecastResult :=
  match prepare rows with
  | .error e => .error e
  | .ok prepared =>
      match fitWith spec optimize (prepared.map Prod.snd) with
      | .error e => .error e
      | .ok m =>
          match assemble (((prepared.map Prod.fst).getLast?).getD 0) h
              (get_forecast m h) with
          | .error e => .error e
          | .ok fc => .ok { observed := prepared, forecast := fc }

/-- The pipeline exactly as `main` runs it: the model specification is the
fixed literal of line 139. -/
def run (optimize : List ℚ → Option (ℚ × ℚ × ℚ × ℚ))
    (rows : List PriceRow) (h : Nat) : Except PipelineError ForecastResult :=
  runWithSpec mainModelSpec optimize rows h

/-! ### Concrete sample data for evaluating the pipeline -/

/-- A trivially convergent optimizer: all coefficients zero. -/
def sampleOptimize : List ℚ → Option (ℚ × ℚ × ℚ × ℚ) :=
  fun _ => some (0, 0, 0, 0)

/-- An optimizer that never converges. -/
def noneOptimize : List ℚ → Option (ℚ × ℚ × ℚ × ℚ) :=
  fun _ => none

/-- 24 daily rows (dates 0–23) with zero prices: the shortest series the
fit accepts. -/
def sampleRows : List PriceRow :=
  (List.range 24).map (fun i => { date := i, openPrice := 0, closePrice := 0 })

/-- The prepared series for `sampleRows`. -/
def sampleObserved : List (Nat × ℚ) :=
  (List.range 24).map (fun i => ((i : Nat), (0 : ℚ)))

/-- The fitted state the pipeline reaches on `sampleRows` with
`sampleOptimize`. -/
def sampleFitted : FittedModel :=
  { phi := 0, theta := 0, sphi := 0, stheta := 0,
    yHist := (sampleObserved.map Prod.snd).reverse,
    epsHist := residAux 0 0 0 0 (sampleObserved.map Prod.snd) [] [] }

/-- The full pipeline output for `sampleRows` with `sampleOptimize` and
horizon 3: three forecasts on dates 24, 25, 26. -/
def sampleResult : ForecastResult :=
  { observed := sampleObserved,
    forecast := List.zip (forecastIndex 23 3) (get_forecast sampleFitted 3) }

/-! ### Helper lemmas -/

lemma forecastIndex_length (d h : Nat) : (forecastIndex d h).length = h := by
  simp [forecastIndex]

lemma forecastIndex_getD (d h i : Nat) (hi : i < h) :
    (forecastIndex d h).getD i 0 = d + 1 + i := by
  simp [forecastIndex, List.getD_eq_getElem?_getD, List.getElem?_map,
    List.getElem?_range hi]

lemma forecastIndex_chain (d h : Nat) :
    List.Chain' (fun a b => a + 1 = b) (forecastIndex d h) := by
  unfold forecastIndex
  rw [List.chain'_map]
  cases h with
  | zero => simp
  | succ n =>
      rw [List.chain'_range_succ]
      intro m _
      omega

lemma forecastIndex_head (d h : Nat) (hh : 0 < h) :
    (forecastIndex d h).head? = some (d + 1) := by
  cases h with
  | zero => exact absurd hh (lt_irrefl 0)
  | succ n => simp [forecastIndex, List.range_succ_eq_map]

lemma forecastAux_length (m : FittedModel) :
    ∀ (n : Nat) (y eps : List ℚ), (forecastAux m n y eps).length = n
  | 0, _, _ => rfl
  | n + 1, y, eps => by
      simp [forecastAux, forecastAux_length m n]

lemma get_forecast_length (m : FittedModel) (steps : Nat) :
    (get_forecast m steps).length = steps :=
  forecastAux_length m steps _ _

lemma assemble_ok_iff (d h : Nat) (p : List ℚ) (res : List (Nat × ℚ)) :
    assemble d h p = .ok res ↔
      p.length = h ∧ res = List.zip (forecastIndex d h) p := by
  unfold assemble
  split
  · simp_all [eq_comm]
  · simp_all

lemma prepare_eq_ok (rows : List PriceRow) (hne : rows ≠ [])
    (ha : datesAscending rows = true) :
    prepare rows = .ok (rows.map (fun r => (r.date, r.closePrice))) := by
  simp [prepare, List.isEmpty_iff, hne, ha]

lemma prepare_ok_inv (rows : List PriceRow) (res : List (Nat × ℚ))
    (hp : prepare rows = .ok res) :
    rows ≠ [] ∧ datesAscending rows = true ∧
      res = rows.map (fun r => (r.date, r.closePrice)) := by
  unfold prepare at hp
  by_cases he : rows.isEmpty
  · rw [if_pos he] at hp
    exact absurd hp (by simp)
  · rw [if_neg he] at hp
    by_cases ha : datesAscending rows
    · rw [if_pos ha] at hp
      refine ⟨by simpa [List.isEmpty_iff] using he, ha, ?_⟩
      exact (Except.ok.injEq _ _).mp hp.symm
    · rw [if_neg ha] at hp
      exact absurd hp (by simp)

lemma runWithSpec_ok {spec : SarimaxSpec}
    {opt : List ℚ → Option (ℚ × ℚ × ℚ × ℚ)} {rows : List PriceRow}
    {h : Nat} {out : ForecastResult}
    (hr : runWithSpec spec opt rows h = .ok out) :
    ∃ prepared m, prepare rows = .ok prepared
      ∧ fitWith spec opt (prepared.map Prod.snd) = .ok m
      ∧ out.observed = prepared
      ∧ out.forecast =
          List.zip (forecastIndex (((prepared.map Prod.fst).getLast?).getD 0) h)
            (get_forecast m h)
      ∧ (get_forecast m h).length = h := by
  unfold runWithSpec at hr
  split at hr
  · exact absurd hr (by simp)
  · rename_i prepared hp
    split at hr
    · exact absurd hr (by simp)
    · rename_i m hm
      split at hr
      · exact absurd hr (by simp)
      · rename_i fc ha
        obtain ⟨hlen, hfc⟩ := (assemble_ok_iff _ _ _ _).mp ha
        cases hr
        exact ⟨prepared, m, hp, hm, rfl, hfc, hlen⟩

lemma getD_zip : ∀ (l₁ : List Nat) (l₂ : List ℚ) (i : Nat),
    i < l₁.length → i < l₂.length →
    (List.zip l₁ l₂).getD i (0, 0) = (l₁.getD i 0, l₂.getD i 0)
  | [], _, i, h₁, _ => absurd h₁ (by simp)
  | _ :: _, [], i, _, h₂ => absurd h₂ (by simp)
  | a :: t₁, b :: t₂, 0, _, _ => rfl
  | a :: t₁, b :: t₂, i + 1, h₁, h₂ => by
      simp only [List.zip_cons_cons, List.getD_cons_succ]
      exact getD_zip t₁ t₂ i (by simpa using h₁) (by simpa using h₂)

/-! ### The claims -/

/-- C1: for every last observed date `d` and horizon `h`, the assembled
forecast date index has exactly `h` dates, they are consecutive calendar
days (each the successor of the previous, so strictly ascending with no
gaps or duplicates), the first is `d` plus one day; on the concrete
scenario, forecasting 5 days after an observed series ending 2020-01-31
gives exactly 2020-02-01 … 2020-02-05; and every successful pipeline run's
forecast dates are exactly this index over the last observed date. -/
theorem C1_forecast_dates :
    (∀ d h, (forecastIndex d h).length = h
        ∧ List.Chain' (fun a b => a + 1 = b) (forecastIndex d h)
        ∧ (∀ i, i < h → (forecastIndex d h).getD i 0 = d + 1 + i)
        ∧ (0 < h → (forecastIndex d h).head? = some (d + 1)))
    ∧ forecastIndex (toOrdinal 2020 1 31) 5 =
        [toOrdinal 2020 2 1, toOrdinal 2020 2 2, toOrdinal 2020 2 3,
         toOrdinal 2020 2 4, toOrdinal 2020 2 5]
    ∧ (∀ opt rows h out, run opt rows h = .ok out →
        out.forecast.map Prod.fst =
          forecastIndex (((out.observed.map Prod.fst).getLast?).getD 0) h) := by
  refine ⟨fun d h => ⟨forecastIndex_length d h, forecastIndex_chain d h,
    fun i hi => forecastIndex_getD d h i hi, forecastIndex_head d h⟩,
    by decide, ?_⟩
  intro opt rows h out hr
  obtain ⟨prepared, m, _, _, hobs, hfc, hlen⟩ := runWithSpec_ok hr
  rw [hobs, hfc]
  exact List.map_fst_zip _ _ (by rw [forecastIndex_length, hlen])

/-- Witness for C1: the concrete scenario index evaluated at positions 0
and 2, and a concrete successful pipeline run whose forecast dates equal
the generated index. -/
theorem C1_forecast_dates_witness :
    (forecastIndex (toOrdinal 2020 1 31) 5).getD 2 0 = toOrdinal 2020 1 31 + 1 + 2
    ∧ (forecastIndex (toOrdinal 2020 1 31) 5).head? = some (toOrdinal 2020 1 31 + 1)
    ∧ sampleResult.forecast.map Prod.fst =
        forecastIndex (((sampleResult.observed.map Prod.fst).getLast?).getD 0) 3 :=
  ⟨(C1_forecast_dates.1 (toOrdinal 2020 1 31) 5).2.2.1 2 (by decide),
   (C1_forecast_dates.1 (toOrdinal 2020 1 31) 5).2.2.2 (by decide),
   C1_forecast_dates.2.2 sampleOptimize sampleRows 3 sampleResult rfl⟩

/-- C2: the forecast operation returns exactly `steps` predicted mean
values for any fitted model, and every successful pipeline run's assembled
forecast series has length exactly the requested horizon. -/
theorem C2_forecast_length :
    (∀ m steps, (get_forecast m steps).length = steps)
    ∧ (∀ opt rows h out, run opt rows h = .ok out → out.forecast.length = h) := by
  refine ⟨get_forecast_length, ?_⟩
  intro opt rows h out hr
  obtain ⟨prepared, m, _, _, _, hfc, hlen⟩ := runWithSpec_ok hr
  rw [hfc, List.length_zip, forecastIndex_length, hlen, min_self]

/-- Witness for C2: a concrete fitted model forecast of 3 steps, and a
concrete successful pipeline run with horizon 3. -/
theorem C2_forecast_length_witness :
    (get_forecast sampleFitted 3).length = 3
    ∧ sampleResult.forecast.length = 3 :=
  ⟨C2_forecast_length.1 sampleFitted 3,
   C2_forecast_length.2 sampleOptimize sampleRows 3 sampleResult rfl⟩

/-- C3: the pipeline always fits the fixed seasonal ARIMA specification of
line 139 — non-seasonal order (1,1,1) and seasonal order (1,1,1,12) — and
no other specification is ever used. -/
theorem C3_fixed_spec :
    run = runWithSpec mainModelSpec
    ∧ mainModelSpec.order = (1, 1, 1)
    ∧ mainModelSpec.seasonalOrder = (1, 1, 1, 12) :=
  ⟨rfl, rfl, rfl⟩

/-- C4: the pipeline is deterministic — two runs on the same prepared
input and horizon (with the same fitting backend) give identical results,
in particular identical forecast value and date sequences. -/
theorem C4_determinism :
    ∀ opt rows₁ rows₂ h₁ h₂, rows₁ = rows₂ → h₁ = h₂ →
      run opt rows₁ h₁ = run opt rows₂ h₂
      ∧ (∀ out₁ out₂, run opt rows₁ h₁ = .ok out₁ → run opt rows₂ h₂ = .ok out₂ →
          out₁.forecast.map Prod.snd = out₂.forecast.map Prod.snd
          ∧ out₁.forecast.map Prod.fst = out₂.forecast.map Prod.fst) := by
  intro opt rows₁ rows₂ h₁ h₂ hrows hh
  subst hrows
  subst hh
  refine ⟨rfl, ?_⟩
  intro out₁ out₂ e₁ e₂
  rw [e₁] at e₂
  cases e₂
  exact ⟨rfl, rfl⟩

/-- Witness for C4: two identical concrete runs agree. -/
theorem C4_determinism_witness :
    run sampleOptimize sampleRows 3 = run sampleOptimize sampleRows 3
    ∧ sampleResult.forecast.map Prod.snd = sampleResult.forecast.map Prod.snd :=
  ⟨(C4_determinism sampleOptimize sampleRows sampleRows 3 3 rfl rfl).1,
   ((C4_determinism sampleOptimize sampleRows sampleRows 3 3 rfl rfl).2
      sampleResult sampleResult rfl rfl).1⟩

/-- C5: prepare on the empty input fails with `InvalidInputError`, the
whole pipeline on empty input produces no forecast (it propagates the same
error), and prepare succeeds only on non-empty ascending-date input. -/
theorem C5_prepare_empty :
    prepare ([] : List PriceRow) = .error .invalidInput
    ∧ (∀ opt h, run opt [] h = .error .invalidInput)
    ∧ (∀ rows res, prepare rows = .ok res →
        rows ≠ [] ∧ datesAscending rows = true) := by
  refine ⟨rfl, fun opt h => rfl, ?_⟩
  intro rows res hp
  obtain ⟨h1, h2, _⟩ := prepare_ok_inv rows res hp
  exact ⟨h1, h2⟩

/-- Witness for C5: a concrete successful prepare implies its input was
non-empty and ascending. -/
theorem C5_prepare_empty_witness :
    sampleRows ≠ [] ∧ datesAscending sampleRows = true :=
  C5_prepare_empty.2.2 sampleRows sampleObserved rfl

/-- C6: fitting surfaces `ModelFitError` both when the series has fewer
than 24 observations (two seasonal cycles of the fixed period 12) and when
the numerical optimizer does not converge. -/
theorem C6_fit_errors :
    (∀ opt series, series.length < 24 →
        fitWith mainModelSpec opt series = .error .modelFit)
    ∧ (∀ opt series, opt series = none →
        fitWith mainModelSpec opt series = .error .modelFit) := by
  constructor
  · intro opt series hlen
    have h24 : series.length < 2 * seasonalPeriod mainModelSpec := hlen
    simp [fitWith, h24]
  · intro opt series hopt
    by_cases hlen : series.length < 2 * seasonalPeriod mainModelSpec
    · simp [fitWith, hlen]
    · simp [fitWith, hlen, hopt]

/-- Witness for C6: a 3-point series is rejected, and a 24-point series
with a non-converging optimizer is rejected. -/
theorem C6_fit_errors_witness :
    fitWith mainModelSpec sampleOptimize [1, 2, 3] = .error .modelFit
    ∧ fitWith mainModelSpec noneOptimize (List.replicate 24 (0 : ℚ)) =
        .error .modelFit :=
  ⟨C6_fit_errors.1 sampleOptimize [1, 2, 3] (by decide),
   C6_fit_errors.2 noneOptimize (List.replicate 24 (0 : ℚ)) rfl⟩

/-- C7: assemble pairs the i-th generated date with the i-th predicted
value by position, and fails with `LengthMismatchError` exactly when the
number of predicted values differs from the horizon. -/
theorem C7_assemble_pairs :
    (∀ d h p, p.length ≠ h → assemble d h p = .error .lengthMismatch)
    ∧ (∀ d h p res, assemble d h p = .ok res →
        res.length = h ∧ p.length = h ∧
        ∀ i, i < h → res.getD i (0, 0) = (d + 1 + i, p.getD i 0)) := by
  constructor
  · intro d h p hne
    simp [assemble, hne]
  · intro d h p res ha
    obtain ⟨hlen, hres⟩ := (assemble_ok_iff d h p res).mp ha
    subst hres
    refine ⟨by simp [List.length_zip, forecastIndex_length, hlen], hlen, ?_⟩
    intro i hi
    rw [getD_zip _ _ i (by rw [forecastIndex_length]; exact hi)
      (by rw [hlen]; exact hi)]
    rw [forecastIndex_getD d h i hi]

/-- Witness for C7: a 2-value sequence against horizon 3 is rejected; a
2-value sequence against horizon 2 assembles to a 2-row series. -/
theorem C7_assemble_pairs_witness :
    assemble 0 3 [(1 : ℚ), 2] = .error .lengthMismatch
    ∧ ([((1 : Nat), (5 : ℚ)), (2, 6)]).length = 2 :=
  ⟨C7_assemble_pairs.1 0 3 [(1 : ℚ), 2] (by decide),
   (C7_assemble_pairs.2 0 2 [(5 : ℚ), 6] [(1, 5), (2, 6)] rfl).1⟩

/-- C8: on any non-empty ascending-date input, the prepared series is the
input's closing prices unmodified, with dates aligned and length
preserved. -/
theorem C8_pass_through :
    ∀ rows : List PriceRow, rows ≠ [] → datesAscending rows = true →
      prepare rows = .ok (rows.map (fun r => (r.date, r.closePrice)))
      ∧ ∀ res, prepare rows = .ok res →
          res.length = rows.length
          ∧ res.map Prod.fst = rows.map (fun r => r.date)
          ∧ res.map Prod.snd = rows.map (fun r => r.closePrice) := by
  intro rows hne ha
  refine ⟨prepare_eq_ok rows hne ha, ?_⟩
  intro res hres
  obtain ⟨_, _, hmap⟩ := prepare_ok_inv rows res hres
  subst hmap
  exact ⟨by simp, by simp [List.map_map], by simp [List.map_map]⟩

/-- Witness for C8: prepare on the concrete sample rows is the exact
close-price pass-through. -/
theorem C8_pass_through_witness :
    prepare sampleRows = .ok (sampleRows.map (fun r => (r.date, r.closePrice))) :=
  (C8_pass_through sampleRows (by decide) (by decide)).1

/-- C9: for a slider selection of `n` years with `n` in [1,10], the
horizon handed to the pipeline is `n * 365`, a positive integer in
[365, 3650]. -/
theorem C9_horizon_range :
    ∀ n, 1 ≤ n → n ≤ 10 →
      period n = n * 365 ∧ 365 ≤ period n ∧ period n ≤ 3650 ∧ 0 < period n := by
  intro n h1 h10
  refine ⟨rfl, ?_, ?_, ?_⟩ <;> simp only [period] <;> omega

/-- Witness for C9: three years of prediction. -/
theorem C9_horizon_range_witness :
    period 3 = 3 * 365 ∧ 365 ≤ period 3 ∧ period 3 ≤ 3650 ∧ 0 < period 3 :=
  C9_horizon_range 3 (by decide) (by decide)

/-- C10: the dropdown tuple is a sorted permutation of the dictionary's
keys (13 distinct names zipped with 13 codes), so every dropdown selection
has a defined lookup returning the code at the matching position of the
original code tuple. -/
theorem C10_catalog_total :
    stocks.Perm (stocks_dictionary.map Prod.fst)
    ∧ List.Pairwise (fun a b => strLe a b = true) stocks
    ∧ unsortedStocksList.Nodup
    ∧ stocks.length = 13 ∧ unsortedStocksCodes.length = 13
    ∧ (stocks.all (fun s => (stocks_dictionary.lookup s).isSome)) = true
    ∧ ((List.range unsortedStocksList.length).all (fun i =>
        stocks_dictionary.lookup (unsortedStocksList.getD i "") ==
          some (unsortedStocksCodes.getD i ""))) = true :=
  ⟨by decide, by decide, by decide, by decide, by decide, by decide, by decide⟩

end StockPredictor
